import Mathlib

/-!
# Verification of the PanguWeather cascade scheduler

A shallow embedding of `src/ai_models_panguweather/model.py` (the `run`
method of the `PanguWeather` class and its nested helpers `run_inference`
and `save_results`), together with proofs of the spec's claims about it.

The four ONNX inference sessions are abstracted as opaque functions from a
(pressure tensor, surface tensor) pair to a (pressure tensor, surface
tensor) pair, with the tensor types left as type parameters `α` (pressure)
and `β` (surface): the scheduler is a pure control-flow and data-routing
problem, independent of what the models compute.

Python's function-local variable `num` of `run` is assigned only inside the
HRES branch; the embedding models an unassigned local with `Option Nat`
(`none` = unbound), so that reading it while unbound surfaces as an
`UnboundLocalError`-style run error, matching CPython semantics.
-/

/-- The eight `nonlocal` buffer variables of `run`: one (pressure, surface)
input pair per cadence (24h, 6h, 3h, 1h). -/
structure BufState (α β : Type) where
  input_24 : α
  input_surface_24 : β
  input_6 : α
  input_surface_6 : β
  input_3 : α
  input_surface_3 : β
  input_1 : α
  input_surface_1 : β
deriving DecidableEq

/-- The four loaded inference sessions (`ort_session_24` … `ort_session_1`),
abstracted: `run_24 input input_surface = (output, output_surface)`. -/
structure Models (α β : Type) where
  run_24 : α → β → α × β
  run_6 : α → β → α × β
  run_3 : α → β → α × β
  run_1 : α → β → α × β

/-- The cadence chosen by the modulo chain of `run_inference`
(lines 120, 133, 145, 156 of model.py): coarsest divisor first. -/
def selectedCadence (step : Nat) : Nat :=
  if step % 24 = 0 then 24
  else if step % 6 = 0 then 6
  else if step % 3 = 0 then 3
  else 1

/-- The function `run_inference(step)` from model.py lines 117-166: selects a session by
the modulo chain, runs it on that cadence's buffer pair, and writes the
output pair back into the buffer pairs of every finer-or-equal cadence.
Returns the updated buffers, the `(output, output_surface)` return value,
and the cadence of the session that was run. -/
def run_inference (M : Models α β) (step : Nat) (st : BufState α β) :
    BufState α β × (α × β) × Nat :=
  if step % 24 = 0 then
    let r := M.run_24 st.input_24 st.input_surface_24
    (⟨r.1, r.2, r.1, r.2, r.1, r.2, r.1, r.2⟩, r, 24)
  else if step % 6 = 0 then
    let r := M.run_6 st.input_6 st.input_surface_6
    ({ st with input_6 := r.1, input_surface_6 := r.2,
               input_3 := r.1, input_surface_3 := r.2,
               input_1 := r.1, input_surface_1 := r.2 }, r, 6)
  else if step % 3 = 0 then
    let r := M.run_3 st.input_3 st.input_surface_3
    ({ st with input_3 := r.1, input_surface_3 := r.2,
               input_1 := r.1, input_surface_1 := r.2 }, r, 3)
  else
    let r := M.run_1 st.input_1 st.input_surface_1
    ({ st with input_1 := r.1, input_surface_1 := r.2 }, r, 1)

/-- The buffer pair of a given cadence (24, 6, 3, or 1). -/
def buffer (st : BufState α β) (c : Nat) : α × β :=
  if c = 24 then (st.input_24, st.input_surface_24)
  else if c = 6 then (st.input_6, st.input_surface_6)
  else if c = 3 then (st.input_3, st.input_surface_3)
  else (st.input_1, st.input_surface_1)

/-- Apply the session of cadence `c` to a (pressure, surface) pair. -/
def applyModel (M : Models α β) (c : Nat) (p : α × β) : α × β :=
  if c = 24 then M.run_24 p.1 p.2
  else if c = 6 then M.run_6 p.1 p.2
  else if c = 3 then M.run_3 p.1 p.2
  else M.run_1 p.1 p.2

lemma run_inference_cadence (M : Models α β) (step : Nat) (st : BufState α β) :
    (run_inference M step st).2.2 = selectedCadence step := by
  by_cases h24 : step % 24 = 0 <;> by_cases h6 : step % 6 = 0 <;>
    by_cases h3 : step % 3 = 0 <;>
    simp [run_inference, selectedCadence, h24, h6, h3]

/-- Observable actions of a run: entering the `stepper` context with its
granularity hint, running an inference session at a step, the block of
`self.write` calls performed by `save_results` for a step, and a
`stepper(num, step)` progress call. -/
inductive Event where
  | stepperEnter (granularity : Nat)
  | invoke (cadence : Nat) (step : Nat)
  | write (step : Nat)
  | stepperCall (num : Nat) (step : Nat)
deriving DecidableEq

/-- Errors a run can raise: `FileNotFoundError` from `os.stat` on a missing
artifact, and Python's error for reading a local variable before it is
assigned. -/
inductive RunError where
  | fileNotFound (path : String)
  | unboundLocal (name : String)
deriving DecidableEq

/-- The outcome of `run`: the final value of the `lead_time` attribute, the
ordered event trace, the final buffer state, and the error the run raised
(if any; events before the error did happen). -/
structure RunResult (α β : Type) where
  lead_time : Nat
  trace : List Event
  final : BufState α β
  error : Option RunError
deriving DecidableEq

/-- Python's `range(start, stop, step)` for a positive stride, as a list. -/
def pyrange (start stop stride : Nat) : List Nat :=
  List.range' start ((stop - start + stride - 1) / stride) stride

/-- The High-resolution step sequence of model.py lines 182-186:
`list(range(1, 91)) + list(range(93, 147, 3)) + list(range(150, 246, 6))`. -/
def hres_steps : List Nat :=
  pyrange 1 91 1 ++ pyrange 93 147 3 ++ pyrange 150 246 6

/-- The Uniform-policy step sequence of model.py lines 193-194:
`step = (i + 1) * 6` for `i in range(self.lead_time // 6)`. -/
def uniform_steps (lead_time : Nat) : List Nat :=
  (pyrange 0 (lead_time / 6) 1).map (fun i => (i + 1) * 6)

/-- The HRES loop body of model.py lines 182-190, iterated over the
remaining steps: `run_inference`, `save_results`, `stepper(num, step)`,
`num += 1`. Returns the events of the loop and the final buffers. -/
def hresLoop (M : Models α β) : List Nat → Nat → BufState α β →
    List Event × BufState α β
  | [], _, st => ([], st)
  | s :: rest, num, st =>
    let r := run_inference M s st
    let t := hresLoop M rest (num + 1) r.1
    (Event.invoke r.2.2 s :: Event.write s :: Event.stepperCall num s :: t.1,
     t.2)

/-- The Uniform loop body of model.py lines 193-197, iterated over the
remaining indices `i`: `step = (i + 1) * 6`, `run_inference`,
`save_results`, then `stepper(num, step)` — which reads the local `num`;
if `num` is unbound (`none`) the loop stops with an error after the
inference and writes of the current step have already happened. -/
def uniformLoop (M : Models α β) (num : Option Nat) : List Nat →
    BufState α β → List Event × BufState α β × Option RunError
  | [], st => ([], st, none)
  | i :: rest, st =>
    let step := (i + 1) * 6
    let r := run_inference M step st
    match num with
    | none =>
      ([Event.invoke r.2.2 step, Event.write step], r.1,
       some (RunError.unboundLocal "num"))
    | some n =>
      let t := uniformLoop M (some n) rest r.1
      (Event.invoke r.2.2 step :: Event.write step ::
         Event.stepperCall n step :: t.1, t.2)

/-- The stepping part of `run` (model.py lines 178-197). `hres` is the test
`self.lead_time_configuration == "HRES"`, `lead_time` the configured
`self.lead_time`. The HRES branch overwrites `lead_time` with `90 + 18 + 16`
and enters `stepper(1)` with `num = 0`; the else branch enters `stepper(6)`
and never assigns the local `num`. -/
def run (M : Models α β) (hres : Bool) (lead_time : Nat)
    (st : BufState α β) : RunResult α β :=
  if hres then
    let t := hresLoop M hres_steps 0 st
    { lead_time := 90 + 18 + 16,
      trace := Event.stepperEnter 1 :: t.1,
      final := t.2,
      error := none }
  else
    let t := uniformLoop M none (pyrange 0 (lead_time / 6) 1) st
    { lead_time := lead_time,
      trace := Event.stepperEnter 6 :: t.1,
      final := t.2.1,
      error := t.2.2 }

/-- The four artifact paths checked by `os.stat` (model.py lines 69-79), in
the order the checks run. -/
def artifactPaths (assets : String) : List String :=
  [assets ++ "/" ++ "pangu_weather_24.onnx",
   assets ++ "/" ++ "pangu_weather_6.onnx",
   assets ++ "/" ++ "pangu_weather_3.onnx",
   assets ++ "/" ++ "pangu_weather_1.onnx"]

/-- The run including the startup artifact checks: `os.stat` raises
`FileNotFoundError` on the first missing artifact, before any session is
loaded and before any step executes; otherwise the stepping part runs. -/
def runFull (exists? : String → Bool) (assets : String) (M : Models α β)
    (hres : Bool) (lead_time : Nat) (st : BufState α β) : RunResult α β :=
  match (artifactPaths assets).find? (fun p => !(exists? p)) with
  | some p =>
    { lead_time := lead_time, trace := [], final := st,
      error := some (RunError.fileNotFound p) }
  | none => run M hres lead_time st

/-- A field template: the metadata handle (variable name, pressure level)
attached to one layer of the initial tensors. Surface fields use level 0. -/
structure FieldMeta where
  param : String
  level : Nat
deriving DecidableEq

/-- From `param_level_pl` of model.py lines 35-38: the pressure-level variable
names, in the configured order. -/
def param_level_pl_params : List String := ["z", "q", "t", "u", "v"]

/-- From `param_level_pl` of model.py lines 35-38: the pressure levels, in the
configured order. -/
def param_level_pl_levels : List Nat :=
  [1000, 925, 850, 700, 600, 500, 400, 300, 250, 200, 150, 100, 50]

/-- From `param_sfc` of model.py line 34: the surface variable names. -/
def param_sfc : List String := ["msl", "10u", "10v", "2t"]

/-- Order on sort keys: lexicographic on (position of the variable name in
the configured name order, position of the level in the configured level
order). -/
def keyLe (a b : Nat × Nat) : Bool :=
  Nat.blt a.1 b.1 || (a.1 == b.1 && Nat.ble a.2 b.2)

/-- The sort key of a pressure-level template. -/
def plKey (f : FieldMeta) : Nat × Nat :=
  (param_level_pl_params.indexOf f.param, param_level_pl_levels.indexOf f.level)

/-- The sort key of a surface template (variable name only). -/
def sfcKey (f : FieldMeta) : Nat × Nat := (param_sfc.indexOf f.param, 0)

lemma keyLe_iff (a b : Nat × Nat) :
    keyLe a b = true ↔ a.1 < b.1 ∨ (a.1 = b.1 ∧ a.2 ≤ b.2) := by
  simp [keyLe]

lemma keyLe_trans (a b c : Nat × Nat) (hab : keyLe a b) (hbc : keyLe b c) :
    keyLe a c := by
  rw [keyLe_iff] at hab hbc ⊢
  omega

lemma keyLe_total (a b : Nat × Nat) : keyLe a b || keyLe b a := by
  rw [Bool.or_eq_true, keyLe_iff, keyLe_iff]
  omega

/-- The pressure-level template ordering relation: by (variable name,
level) key. -/
def plLe (f g : FieldMeta) : Prop := keyLe (plKey f) (plKey g) = true

/-- The surface template ordering relation: by variable name. -/
def sfcLe (f g : FieldMeta) : Prop := keyLe (sfcKey f) (sfcKey g) = true

instance : DecidableRel plLe := fun f g => by unfold plLe; infer_instance

instance : DecidableRel sfcLe := fun f g => by unfold sfcLe; infer_instance

instance : IsTrans FieldMeta plLe := ⟨fun _ _ _ => keyLe_trans _ _ _⟩

instance : IsTrans FieldMeta sfcLe := ⟨fun _ _ _ => keyLe_trans _ _ _⟩

instance : IsTotal FieldMeta plLe :=
  ⟨fun a b => by
    have := keyLe_total (plKey a) (plKey b)
    rw [Bool.or_eq_true] at this
    exact this⟩

instance : IsTotal FieldMeta sfcLe :=
  ⟨fun a b => by
    have := keyLe_total (sfcKey a) (sfcKey b)
    rw [Bool.or_eq_true] at this
    exact this⟩

/-- Modelled from the spec: `fields_pl.sel(param=param, level=level)` — the
Field Adapter's selection operation (the `sel` method lives in the external
`ai_models` package, not in this repository): keep exactly the templates
whose (name, level) is among the configured ones. -/
def sel_pl (fs : List FieldMeta) : List FieldMeta :=
  fs.filter (fun f =>
    param_level_pl_params.contains f.param &&
    param_level_pl_levels.contains f.level)

/-- Modelled from the spec: `fields_sfc.sel(param=self.param_sfc)`. -/
def sel_sfc (fs : List FieldMeta) : List FieldMeta :=
  fs.filter (fun f => param_sfc.contains f.param)

/-- Modelled from the spec: `fields_pl.order_by(param=param, level=level)` —
the Field Adapter's ordering operation (external `ai_models` package):
a stable insertion sort of the templates by (variable name, level), names and levels
ordered by their position in the configured lists. -/
def order_by_pl (fs : List FieldMeta) : List FieldMeta :=
  List.insertionSort plLe fs

/-- Modelled from the spec: `fields_sfc.order_by(param=self.param_sfc)`. -/
def order_by_sfc (fs : List FieldMeta) : List FieldMeta :=
  List.insertionSort sfcLe fs

/-- The `fields_pl` value captured once at initialization (model.py lines
48-52) and reused by `save_results` at every step. -/
def fields_pl_of (initial : List FieldMeta) : List FieldMeta :=
  order_by_pl (sel_pl initial)

/-- The `fields_sfc` value captured once at initialization (model.py lines
57-59). -/
def fields_sfc_of (initial : List FieldMeta) : List FieldMeta :=
  order_by_sfc (sel_sfc initial)

/-- One `self.write(data, template=f, step=step)` call. -/
structure WriteRec (γ : Type) where
  data : γ
  template : FieldMeta
  step : Nat
deriving DecidableEq

/-- The function `save_results` from model.py lines 168-176: the output tensors, already
split along their leading axis into 2-D layers (`reshape((-1, 721, 1440))`),
are paired positionally with the captured template lists by `zip`, and each
pair is written tagged with the step. -/
def save_results (pl_data sfc_data : List γ)
    (fields_pl fields_sfc : List FieldMeta) (step : Nat) : List (WriteRec γ) :=
  (pl_data.zip fields_pl).map (fun p => ⟨p.1, p.2, step⟩) ++
    (sfc_data.zip fields_sfc).map (fun p => ⟨p.1, p.2, step⟩)

/-- A concrete model set over `Nat` tensors, used to witness the theorems:
each cadence adds a different constant, so outputs of different cadences
are distinguishable. -/
def M0 : Models Nat Nat :=
  ⟨fun p s => (p + 1, s + 1), fun p s => (p + 10, s + 10),
   fun p s => (p + 100, s + 100), fun p s => (p + 1000, s + 1000)⟩

/-- A concrete initial buffer state for the witnesses. -/
def st0 : BufState Nat Nat := ⟨0, 0, 0, 0, 0, 0, 0, 0⟩

/-- C1 (cascade superseding): at every step, the output pair of the cadence
selected by `run_inference` replaces the buffer pair of every cadence finer
than or equal to it, the buffer pair of every strictly coarser cadence is
left unchanged, and in particular when `step % 24 = 0` every buffer pair
(24, 6, 3, and 1) equals the 24h model's output. -/
theorem c1_cascade_superseding (M : Models α β) (step : Nat)
    (st : BufState α β) (d : Nat) (hd : d ∈ [24, 6, 3, 1]) :
    (d ≤ selectedCadence step →
      buffer (run_inference M step st).1 d = (run_inference M step st).2.1) ∧
    (selectedCadence step < d →
      buffer (run_inference M step st).1 d = buffer st d) ∧
    (step % 24 = 0 →
      buffer (run_inference M step st).1 d =
        M.run_24 st.input_24 st.input_surface_24) := by
  fin_cases hd <;>
    by_cases h24 : step % 24 = 0 <;> by_cases h6 : step % 6 = 0 <;>
    by_cases h3 : step % 3 = 0 <;>
    simp_all [run_inference, selectedCadence, buffer]

/-- Witness for C1 at step 12 and cadence 6: the 6h buffer pair is replaced
by the output. -/
theorem c1_cascade_superseding_witness :
    (6 : Nat) ∈ [24, 6, 3, 1] ∧ 6 ≤ selectedCadence 12 ∧
    buffer (run_inference M0 12 st0).1 6 = (run_inference M0 12 st0).2.1 :=
  ⟨by decide, by decide,
   (c1_cascade_superseding M0 12 st0 6 (by decide)).1 (by decide)⟩

/-- C2 (priority cadence selection): for every step `s > 0` the cadence
selected by `run_inference` is the largest element of {24, 6, 3, 1} that
evenly divides `s` (the modulo chain checks coarsest first, first match
wins), and the selected session reads its own cadence's buffer pair as
input. -/
theorem c2_priority_cadence_selection (M : Models α β) (step : Nat)
    (h : 0 < step) (st : BufState α β) :
    selectedCadence step ∈ [24, 6, 3, 1] ∧
    selectedCadence step ∣ step ∧
    (∀ c, c ∈ [24, 6, 3, 1] → c ∣ step → c ≤ selectedCadence step) ∧
    (run_inference M step st).2.2 = selectedCadence step ∧
    (run_inference M step st).2.1 =
      applyModel M (selectedCadence step) (buffer st (selectedCadence step)) := by
  by_cases h24 : step % 24 = 0 <;> by_cases h6 : step % 6 = 0 <;>
    by_cases h3 : step % 3 = 0 <;>
    refine ⟨?_, ?_, ?_, ?_, ?_⟩ <;>
    simp_all [run_inference, selectedCadence, applyModel, buffer] <;>
    omega

/-- Witness for C2 at step 12: 12 is divisible by 6 and 3 but the selected
session is the 6h one. -/
theorem c2_priority_cadence_selection_witness :
    0 < 12 ∧ (run_inference M0 12 st0).2.2 = selectedCadence 12 ∧
    selectedCadence 12 = 6 :=
  ⟨by decide, (c2_priority_cadence_selection M0 12 (by decide) st0).2.2.2.1,
   by decide⟩

lemma hresLoop_events (M : Models α β) :
    ∀ (steps : List Nat) (num : Nat) (st : BufState α β),
      (hresLoop M steps num st).1 =
        ((steps.enumFrom num).map (fun p =>
          [Event.invoke (selectedCadence p.2) p.2, Event.write p.2,
           Event.stepperCall p.1 p.2])).flatten
  | [], _, _ => rfl
  | s :: rest, num, st => by
    simp [hresLoop, run_inference_cadence,
      hresLoop_events M rest (num + 1) (run_inference M s st).1]

set_option maxRecDepth 20000 in
/-- C3 (High-resolution step sequence): `hres_steps` is strictly
increasing and is exactly {1,…,90} followed by {93,96,…,144} followed by
{150,156,…,240}, 124 = 90 + 18 + 16 elements in all; and under the HRES
policy the run's trace is, after entering the stepper, exactly one model
invocation followed by the output writes for that step (and the progress
call) for each enumerated step in order. -/
theorem c3_hres_step_sequence :
    List.Pairwise (· < ·) hres_steps ∧
    hres_steps =
      (List.range 90).map (fun i => i + 1) ++
      (List.range 18).map (fun i => 93 + 3 * i) ++
      (List.range 16).map (fun i => 150 + 6 * i) ∧
    hres_steps.length = 124 ∧
    ∀ (α β : Type) (M : Models α β) (L : Nat) (st : BufState α β),
      (run M true L st).trace =
        Event.stepperEnter 1 ::
          (hres_steps.enum.map (fun p =>
            [Event.invoke (selectedCadence p.2) p.2, Event.write p.2,
             Event.stepperCall p.1 p.2])).flatten := by
  refine ⟨by decide, by decide, by decide, ?_⟩
  intro α β M L st
  simp [run, List.enum, hresLoop_events]

/-- C4 (code bug): under the Uniform policy with `lead_time = 6`, the run
enters the stepper with granularity 6 and completes the inference and the
writes of step 6, but the first progress call `stepper(num, step)` reads
the function-local `num`, which is assigned only in the HRES branch, so the
run raises an unbound-local error and no progress call ever appears in the
trace — contradicting the claimed `(sequence index, step)` reporting. -/
theorem c4_uniform_progress_unbound_local (M : Models α β)
    (st : BufState α β) :
    (run M false 6 st).error = some (RunError.unboundLocal "num") ∧
    (run M false 6 st).trace =
      [Event.stepperEnter 6, Event.invoke (selectedCadence 6) 6,
       Event.write 6] ∧
    (∀ n s, Event.stepperCall n s ∉ (run M false 6 st).trace) := by
  refine ⟨rfl, rfl, ?_⟩
  intro n s h
  simp [run, uniformLoop, pyrange, List.range'] at h

lemma pyrange_zero_one (n : Nat) : pyrange 0 n 1 = List.range n := by
  simp [pyrange, List.range_eq_range']

/-- C5 (Uniform step sequence with truncation): under the Uniform policy
with configured lead time `L`, the enumerated step sequence is exactly
{6, 12, …, 6·(L div 6)} — `L div 6` strictly increasing elements — so a
lead time not divisible by 6 silently truncates to the last full 6-hour
multiple (the sequence for `L` equals the one for `6·(L div 6)`), and
`lead_time = 18` yields exactly {6, 12, 18}. -/
theorem c5_uniform_steps (L : Nat) :
    uniform_steps L = (List.range (L / 6)).map (fun i => 6 * (i + 1)) ∧
    (uniform_steps L).length = L / 6 ∧
    uniform_steps L = uniform_steps (6 * (L / 6)) ∧
    List.Pairwise (· < ·) (uniform_steps L) ∧
    uniform_steps 18 = [6, 12, 18] := by
  have hdiv : 6 * (L / 6) / 6 = L / 6 := by omega
  refine ⟨?_, ?_, ?_, ?_, by decide⟩
  · rw [uniform_steps, pyrange_zero_one]
    exact List.map_congr_left (fun i _ => by ring)
  · simp [uniform_steps, pyrange_zero_one]
  · simp [uniform_steps, hdiv]
  · rw [uniform_steps, pyrange_zero_one]
    exact (List.pairwise_map).2 ((List.pairwise_lt_range _).imp (by omega))

lemma uniformLoop_invoke_step (M : Models α β) (num : Option Nat) :
    ∀ (idxs : List Nat) (st : BufState α β) (c s : Nat),
      Event.invoke c s ∈ (uniformLoop M num idxs st).1 →
      ∃ i, i ∈ idxs ∧ s = (i + 1) * 6
  | [], st, c, s => by simp [uniformLoop]
  | i :: rest, st, c, s => by
    cases num with
    | none =>
      intro h
      simp [uniformLoop] at h
      exact ⟨i, by simp, h.2⟩
    | some n =>
      intro h
      simp only [uniformLoop, List.mem_cons] at h
      rcases h with h | h | h | h
      · simp at h
        exact ⟨i, by simp, h.2⟩
      · exact absurd h (by simp)
      · exact absurd h (by simp)
      · obtain ⟨j, hj, hs⟩ :=
          uniformLoop_invoke_step M (some n) rest
            (run_inference M ((i + 1) * 6) st).1 c s h
        exact ⟨j, by simp [hj], hs⟩

lemma hresLoop_invoke_step (M : Models α β) :
    ∀ (steps : List Nat) (num : Nat) (st : BufState α β) (c s : Nat),
      Event.invoke c s ∈ (hresLoop M steps num st).1 → s ∈ steps
  | [], _, st, c, s => by simp [hresLoop]
  | t :: rest, num, st, c, s => by
    intro h
    simp only [hresLoop, List.mem_cons] at h
    rcases h with h | h | h | h
    · simp at h
      exact h.2 ▸ List.mem_cons_self t rest
    · exact absurd h (by simp)
    · exact absurd h (by simp)
    · exact List.mem_cons_of_mem t
        (hresLoop_invoke_step M rest (num + 1) (run_inference M t st).1 c s h)

/-- C8 (step 0 is never scheduled): 0 appears in neither enumerated step
sequence, the first HRES step is 1 and the first Uniform step is 6 (for a
lead time of at least one stride), and no inference session is ever
invoked for step 0 under either policy. -/
theorem c8_step_zero_never_scheduled :
    0 ∉ hres_steps ∧ (∀ L, 0 ∉ uniform_steps L) ∧
    hres_steps.head? = some 1 ∧
    (∀ L, 6 ≤ L → (uniform_steps L).head? = some 6) ∧
    ∀ (α β : Type) (M : Models α β) (b : Bool) (L : Nat) (st : BufState α β)
      (c : Nat), Event.invoke c 0 ∉ (run M b L st).trace := by
  refine ⟨by decide, ?_, by decide, ?_, ?_⟩
  · intro L
    simp only [uniform_steps, List.mem_map, not_exists]
    intro i
    rintro ⟨_, h⟩
    omega
  · intro L hL
    have h1 : L / 6 = (L / 6 - 1) + 1 := by omega
    rw [uniform_steps, pyrange_zero_one, h1, List.range_succ_eq_map]
    rfl
  · intro α β M b L st c h
    cases b with
    | true =>
      have ht : (run M true L st).trace =
          Event.stepperEnter 1 :: (hresLoop M hres_steps 0 st).1 := rfl
      rw [ht, List.mem_cons] at h
      rcases h with h | h
      · exact absurd h (by simp)
      · have h0 : (0 : Nat) ∈ hres_steps :=
          hresLoop_invoke_step M hres_steps 0 st c 0 h
        revert h0
        decide
    | false =>
      have ht : (run M false L st).trace =
          Event.stepperEnter 6 ::
            (uniformLoop M none (pyrange 0 (L / 6) 1) st).1 := rfl
      rw [ht, List.mem_cons] at h
      rcases h with h | h
      · exact absurd h (by simp)
      · obtain ⟨i, _, hi⟩ :=
          uniformLoop_invoke_step M none _ st c 0 h
        omega

/-- Witness for C8: lead time 18 has first step 6, and the HRES run never
invokes any session at step 0. -/
theorem c8_step_zero_never_scheduled_witness :
    (6 : Nat) ≤ 18 ∧ (uniform_steps 18).head? = some 6 ∧
    Event.invoke 1 0 ∉ (run M0 true 0 st0).trace :=
  ⟨by decide, c8_step_zero_never_scheduled.2.2.2.1 18 (by decide),
   c8_step_zero_never_scheduled.2.2.2.2 Nat Nat M0 true 0 st0 1⟩

/-- C9 (HRES ignores the configured lead time): with the HRES policy the
run's outcome — final `lead_time` attribute, trace, buffers — is the same
whatever lead time was configured, and the final `lead_time` is
90 + 18 + 16 = 124. -/
theorem c9_hres_ignores_lead_time (M : Models α β) (st : BufState α β)
    (L1 L2 : Nat) :
    run M true L1 st = run M true L2 st ∧
    (run M true L1 st).lead_time = 90 + 18 + 16 ∧
    (run M true L1 st).lead_time = 124 :=
  ⟨rfl, rfl, rfl⟩

/-- C10 (empty Uniform run below one stride): with the Uniform policy and a
configured lead time below 6 hours the stepper is entered but no step is
enumerated: no session is invoked, nothing is written, the buffers are left
equal to the initial state, and no error is raised. -/
theorem c10_empty_uniform_run (M : Models α β) (st : BufState α β)
    (L : Nat) (h : L < 6) :
    (run M false L st).trace = [Event.stepperEnter 6] ∧
    (run M false L st).error = none ∧
    (run M false L st).final = st := by
  have h0 : L / 6 = 0 := by omega
  simp [run, h0, pyrange, uniformLoop, List.range']

/-- Witness for C10 at lead time 5. -/
theorem c10_empty_uniform_run_witness :
    5 < 6 ∧ (run M0 false 5 st0).trace = [Event.stepperEnter 6] ∧
    (run M0 false 5 st0).error = none ∧ (run M0 false 5 st0).final = st0 :=
  ⟨by decide, (c10_empty_uniform_run M0 st0 5 (by decide)).1,
   (c10_empty_uniform_run M0 st0 5 (by decide)).2.1,
   (c10_empty_uniform_run M0 st0 5 (by decide)).2.2⟩

lemma map_snd_zip_eq_take :
    ∀ (l1 : List γ) (l2 : List δ), (l1.zip l2).map (fun p => p.2) =
      l2.take l1.length
  | [], l2 => by simp
  | a :: t, [] => by simp
  | a :: t, b :: u => by simp [map_snd_zip_eq_take t u]

lemma save_results_getElem_pl (pl sfc : List γ) (fpl fsfc : List FieldMeta)
    (s i : Nat) (hi : i < pl.length) (hf : i < fpl.length) :
    (save_results pl sfc fpl fsfc s)[i]? =
      some ⟨pl.get ⟨i, hi⟩, fpl.get ⟨i, hf⟩, s⟩ := by
  have hlen : i < ((pl.zip fpl).map
      (fun p => (⟨p.1, p.2, s⟩ : WriteRec γ))).length := by
    simp [List.length_zip]
    omega
  rw [save_results, List.getElem?_append, if_pos hlen]
  simp [List.zip, List.getElem?_zipWith', List.getElem?_eq_getElem hi,
    List.getElem?_eq_getElem hf]

/-- C7 (output reassembly ordering): the template orderings computed once
at initialization are sorted by the (variable name, level) key (name and
level ranked by the configured orderings); at any step, reassembly pairs
layer `i` positionally with the `i`-th template of that fixed ordering, so
the layer-to-template mapping is identical across all steps of a run. -/
theorem c7_output_ordering (initial_pl initial_sfc : List FieldMeta)
    (pl1 pl2 sfc1 sfc2 : List γ) (s1 s2 i : Nat)
    (hi1 : i < pl1.length) (hi2 : i < pl2.length)
    (hf : i < (fields_pl_of initial_pl).length) :
    List.Pairwise plLe (fields_pl_of initial_pl) ∧
    List.Pairwise sfcLe (fields_sfc_of initial_sfc) ∧
    ((save_results pl1 sfc1 (fields_pl_of initial_pl)
        (fields_sfc_of initial_sfc) s1)[i]?).map (fun w => w.template) =
      some ((fields_pl_of initial_pl).get ⟨i, hf⟩) ∧
    ((save_results pl2 sfc2 (fields_pl_of initial_pl)
        (fields_sfc_of initial_sfc) s2)[i]?).map (fun w => w.template) =
      some ((fields_pl_of initial_pl).get ⟨i, hf⟩) ∧
    (pl1.length = pl2.length → sfc1.length = sfc2.length →
      (save_results pl1 sfc1 (fields_pl_of initial_pl)
        (fields_sfc_of initial_sfc) s1).map (fun w => w.template) =
      (save_results pl2 sfc2 (fields_pl_of initial_pl)
        (fields_sfc_of initial_sfc) s2).map (fun w => w.template)) := by
  refine ⟨?_, ?_, ?_, ?_, ?_⟩
  · exact List.sorted_insertionSort plLe (sel_pl initial_pl)
  · exact List.sorted_insertionSort sfcLe (sel_sfc initial_sfc)
  · rw [save_results_getElem_pl pl1 sfc1 _ _ s1 i hi1 hf]
    rfl
  · rw [save_results_getElem_pl pl2 sfc2 _ _ s2 i hi2 hf]
    rfl
  · intro hp hs
    simp only [save_results, List.map_append, List.map_map]
    rw [show ((fun w => WriteRec.template w) ∘ fun p : γ × FieldMeta =>
        (⟨p.1, p.2, s1⟩ : WriteRec γ)) = fun p => p.2 from rfl]
    rw [show ((fun w => WriteRec.template w) ∘ fun p : γ × FieldMeta =>
        (⟨p.1, p.2, s2⟩ : WriteRec γ)) = fun p => p.2 from rfl]
    rw [map_snd_zip_eq_take, map_snd_zip_eq_take,
      map_snd_zip_eq_take, map_snd_zip_eq_take, hp, hs]

/-- C6 (fatal on missing artifact): if any of the four artifact paths does
not exist, the run ends with a file-not-found error for a missing artifact,
with an empty trace — no inference session is invoked and no output is
written. -/
theorem c6_fatal_on_missing_artifact (exists? : String → Bool)
    (assets : String) (M : Models α β) (hres : Bool) (L : Nat)
    (st : BufState α β)
    (h : ∃ p ∈ artifactPaths assets, exists? p = false) :
    ∃ p ∈ artifactPaths assets, exists? p = false ∧
      runFull exists? assets M hres L st =
        { lead_time := L, trace := [], final := st,
          error := some (RunError.fileNotFound p) } ∧
      (∀ c s, Event.invoke c s ∉ (runFull exists? assets M hres L st).trace) ∧
      (∀ s, Event.write s ∉ (runFull exists? assets M hres L st).trace) := by
  have hsome : ((artifactPaths assets).find? (fun p => !(exists? p))).isSome := by
    rw [List.find?_isSome]
    obtain ⟨p, hp, hfalse⟩ := h
    exact ⟨p, hp, by simp [hfalse]⟩
  obtain ⟨p, hfind⟩ := Option.isSome_iff_exists.mp hsome
  have hmem := List.mem_of_find?_eq_some hfind
  have hfalse : exists? p = false := by
    have := List.find?_some hfind
    simpa using this
  refine ⟨p, hmem, hfalse, ?_, ?_, ?_⟩
  · rw [runFull, hfind]
  · intro c s
    rw [runFull, hfind]
    simp
  · intro s
    rw [runFull, hfind]
    simp

/-- Concrete pressure-level templates for the C7 witness (deliberately out
of order). -/
def initPl0 : List FieldMeta := [⟨"t", 500⟩, ⟨"z", 1000⟩, ⟨"q", 925⟩]

/-- Concrete surface templates for the C7 witness. -/
def initSfc0 : List FieldMeta := [⟨"2t", 0⟩, ⟨"msl", 0⟩]

/-- Witness for C7: at steps 24 and 93, layer 1 is paired with the same
template. -/
theorem c7_output_ordering_witness :
    1 < [10, 20, 30].length ∧ 1 < [40, 50, 60].length ∧
    1 < (fields_pl_of initPl0).length ∧
    ((save_results [10, 20, 30] [7] (fields_pl_of initPl0)
        (fields_sfc_of initSfc0) 24)[1]?).map (fun w => w.template) =
      ((save_results [40, 50, 60] [8] (fields_pl_of initPl0)
        (fields_sfc_of initSfc0) 93)[1]?).map (fun w => w.template) := by
  have h := c7_output_ordering initPl0 initSfc0 [10, 20, 30] [40, 50, 60]
    [7] [8] 24 93 1 (by decide) (by decide) (by decide)
  exact ⟨by decide, by decide, by decide, h.2.2.1.trans h.2.2.2.1.symm⟩

/-- A file system with the 3h artifact missing, for the C6 witness. -/
def missing3 : String → Bool :=
  fun p => !(p == "assets" ++ "/" ++ "pangu_weather_3.onnx")

/-- Witness for C6: with the 3h artifact missing, the run aborts with a
file-not-found error and an empty trace. -/
theorem c6_fatal_on_missing_artifact_witness :
    ∃ p ∈ artifactPaths "assets", missing3 p = false ∧
      runFull missing3 "assets" M0 true 0 st0 =
        { lead_time := 0, trace := [], final := st0,
          error := some (RunError.fileNotFound p) } ∧
      (∀ c s, Event.invoke c s ∉ (runFull missing3 "assets" M0 true 0 st0).trace) ∧
      (∀ s, Event.write s ∉ (runFull missing3 "assets" M0 true 0 st0).trace) :=
  c6_fatal_on_missing_artifact missing3 "assets" M0 true 0 st0
    ⟨"assets" ++ "/" ++ "pangu_weather_3.onnx", by decide, by decide⟩
